import Mathlib

/-!
Shallow embedding of the posture-classification pipeline of
`src/hooks/usePostureTracking.ts` (the later source variant, the one with
`personVisible`, `isNeckWarning`, writing mode and the override resolver).

Numbers are modelled as real numbers, timestamps (`Date.now()` milliseconds)
as integers, and the sensitivity level as an integer.  Each definition mirrors
one source binding and keeps its name where the identifier is admissible.
-/

open Real

open scoped Classical

noncomputable section

namespace BackWatch

/-- A single pose landmark: normalized position plus optional visibility
confidence, as delivered by the external pose estimator. -/
structure Landmark where
  x : ℝ
  y : ℝ
  visibility : Option ℝ

/-- `results.poseLandmarks`: the ordered landmark sequence of one frame. -/
abbrev Pose := List Landmark

/-- Landmark lookup `landmarks[i]`.  The analysis code only reads indices that
are present behind its guards (the visibility gate guarantees ≥ 13 entries, and
hip access is guarded by an explicit presence check on the list length), so a
default landmark stands in for JavaScript's `undefined` at absent indices. -/
def lm (p : Pose) (i : ℕ) : Landmark := p.getD i ⟨0, 0, none⟩

/-- A bare 2-D point, for the three arguments of `calculateAngle`. -/
structure Pt where
  x : ℝ
  y : ℝ

/-- JavaScript `Math.atan2 y x`, written as the usual piecewise extension of
`arctan` to all four quadrants. -/
def atan2 (y x : ℝ) : ℝ :=
  if 0 < x then arctan (y / x)
  else if x < 0 ∧ 0 ≤ y then arctan (y / x) + π
  else if x < 0 ∧ y < 0 then arctan (y / x) - π
  else if x = 0 ∧ 0 < y then π / 2
  else if x = 0 ∧ y < 0 then -(π / 2)
  else 0

/-- `calculateAngle(p1, p2, p3)`: two-vector angle at `p2`, in degrees,
reflected into `[0, 180]`. -/
def calculateAngle (p1 p2 p3 : Pt) : ℝ :=
  let radians := atan2 (p3.y - p2.y) (p3.x - p2.x) - atan2 (p1.y - p2.y) (p1.x - p2.x)
  let angle := |radians * 180 / π|
  if 180 < angle then 360 - angle else angle

/-- The in-frame test used by the visibility gate:
`p.x >= -0.05 && p.x <= 1.05 && p.y >= -0.05 && p.y <= 1.05`. -/
def inFrame (p : Landmark) : Prop :=
  -0.05 ≤ p.x ∧ p.x ≤ 1.05 ∧ -0.05 ≤ p.y ∧ p.y ≤ 1.05

/-- The confidence test used by the visibility gate:
`p.visibility == null || p.visibility > 0.5`. -/
def visOk (p : Landmark) : Prop :=
  match p.visibility with
  | none => True
  | some v => 0.5 < v

/-- `isPersonReallyVisible(landmarks)`: the visibility gate.  The source's
null check on `nose`/`leftShoulder`/`rightShoulder` is subsumed by the length
check, since a dense landmark array of ≥ 13 entries defines indices 0, 11, 12. -/
def isPersonReallyVisible (landmarks : Pose) : Bool :=
  if landmarks.length < 13 then false
  else
    let nose := lm landmarks 0
    let leftShoulder := lm landmarks 11
    let rightShoulder := lm landmarks 12
    if ¬(inFrame nose ∧ inFrame leftShoulder ∧ inFrame rightShoulder) then false
    else if ¬(visOk nose ∧ visOk leftShoulder ∧ visOk rightShoulder) then false
    else if Real.sqrt ((rightShoulder.x - leftShoulder.x) ^ 2 +
        (rightShoulder.y - leftShoulder.y) ^ 2) < 0.02 then false
    else true

/- Metric extraction: the local bindings of `onResults` on a visible pose. -/

/-- Ear midpoint x: `(leftEar.x + rightEar.x) / 2` (indices 7, 8). -/
def earMidX (p : Pose) : ℝ := ((lm p 7).x + (lm p 8).x) / 2

/-- Ear midpoint y. -/
def earMidY (p : Pose) : ℝ := ((lm p 7).y + (lm p 8).y) / 2

/-- Shoulder midpoint x: indices 11, 12. -/
def shoulderMidX (p : Pose) : ℝ := ((lm p 11).x + (lm p 12).x) / 2

/-- Shoulder midpoint y. -/
def shoulderMidY (p : Pose) : ℝ := ((lm p 11).y + (lm p 12).y) / 2

/-- `forwardNeckAngle`: angle at the ear midpoint between a virtual point 0.1
above it and the shoulder midpoint. -/
def forwardNeckAngle (p : Pose) : ℝ :=
  calculateAngle ⟨earMidX p, earMidY p - 0.1⟩ ⟨earMidX p, earMidY p⟩
    ⟨shoulderMidX p, shoulderMidY p⟩

/-- `earShoulderVertDist = Math.max(0.01, shoulderMidY - earMidY)`. -/
def earShoulderVertDist (p : Pose) : ℝ := max 0.01 (shoulderMidY p - earMidY p)

/-- `noseDropRatio` in the source: `(nose.y - earMidY) / earShoulderVertDist`
(the nose is index 0, always present behind the visibility gate). -/
def noseDropFrac (p : Pose) : ℝ := ((lm p 0).y - earMidY p) / earShoulderVertDist p

/-- `chinDownPenalty`: disabled in writing mode, else
`Math.max(0, (noseDropRatio - 0.45) * 160)`. -/
def chinDownPenalty (isWriting : Bool) (p : Pose) : ℝ :=
  if isWriting then 0 else max 0 ((noseDropFrac p - 0.45) * 160)

/-- `earDx = Math.abs(leftEar.x - rightEar.x) || 0.001` (the JS `||` replaces a
zero value by 0.001). -/
def earDx (p : Pose) : ℝ :=
  if |(lm p 7).x - (lm p 8).x| = 0 then 0.001 else |(lm p 7).x - (lm p 8).x|

/-- `earDy = Math.abs(leftEar.y - rightEar.y)`. -/
def earDy (p : Pose) : ℝ := |(lm p 7).y - (lm p 8).y|

/-- `lateralTiltDeg = Math.atan2(earDy, earDx) * 180 / Math.PI`. -/
def lateralTiltDeg (p : Pose) : ℝ := atan2 (earDy p) (earDx p) * 180 / π

/-- `neckAngle = forwardNeckAngle - chinDownPenalty - lateralTiltDeg * 0.6`,
the value published in the metrics record (no clamping follows). -/
def neckAngle (isWriting : Bool) (p : Pose) : ℝ :=
  forwardNeckAngle p - chinDownPenalty isWriting p - lateralTiltDeg p * 0.6

/-- `shoulderDist`: Euclidean distance between the shoulder landmarks, the
inverse proxy for distance from the camera. -/
def shoulderDist (p : Pose) : ℝ :=
  Real.sqrt (((lm p 11).x - (lm p 12).x) ^ 2 + ((lm p 11).y - (lm p 12).y) ^ 2)

/-- `shoulderHeight = (leftShoulder.y + rightShoulder.y) / 2`. -/
def shoulderHeight (p : Pose) : ℝ := ((lm p 11).y + (lm p 12).y) / 2

/-- `shoulderCenterX = (leftShoulder.x + rightShoulder.x) / 2`. -/
def shoulderCenterX (p : Pose) : ℝ := ((lm p 11).x + (lm p 12).x) / 2

/-- `headSideOffset = Math.abs(nose.x - shoulderCenterX)`. -/
def headSideOffset (p : Pose) : ℝ := |(lm p 0).x - shoulderCenterX p|

/-- `hipCenterY = (leftHip.y + rightHip.y) / 2` (indices 23, 24). -/
def hipCenterY (p : Pose) : ℝ := ((lm p 23).y + (lm p 24).y) / 2

/-- `torsoExtent = hipCenterY - shoulderHeight` (same formula for the baseline). -/
def torsoExtent (p : Pose) : ℝ := hipCenterY p - shoulderHeight p

/-- `avgEarShoulderDist`: mean vertical ear-to-shoulder gap,
`((shoulder11.y - ear7.y) + (shoulder12.y - ear8.y)) / 2`; the source applies
the same formula to the baseline landmarks. -/
def avgEarShoulderDist (p : Pose) : ℝ :=
  (((lm p 11).y - (lm p 7).y) + ((lm p 12).y - (lm p 8).y)) / 2

/- Sensitivity-parameterized thresholds. -/

/-- `toleranceFactor = (10 - sens) / 9`. -/
def toleranceFactor (sens : ℤ) : ℝ := (10 - (sens : ℝ)) / 9

/-- `zThreshold`: the too-close alarm ratio,
`sens >= 5 ? 1.12 + (10-sens)*0.01 : sens >= 4 ? 1.05 + (10-sens)*0.008
: 1.15 + 0.15*toleranceFactor`. -/
def zThreshold (sens : ℤ) : ℝ :=
  if 5 ≤ sens then 1.12 + (10 - (sens : ℝ)) * 0.01
  else if 4 ≤ sens then 1.05 + (10 - (sens : ℝ)) * 0.008
  else 1.15 + 0.15 * toleranceFactor sens

/-- `isSideways = nose && Math.abs(nose.x - earMidX) >= 0.07`. -/
def isSideways (p : Pose) : Prop := 0.07 ≤ |(lm p 0).x - earMidX p|

/-- `useStrictSlouch = sens >= 6 || (isSideways && sens >= 5)`. -/
def useStrictSlouch (sens : ℤ) (p : Pose) : Prop :=
  6 ≤ sens ∨ (isSideways p ∧ 5 ≤ sens)

/-- `slouchThreshold`: margin added to the baseline shoulder height. -/
def slouchThreshold (sens : ℤ) (p : Pose) : ℝ :=
  if ¬ useStrictSlouch sens p then 0.03 + 0.07 * toleranceFactor sens
  else if sens = 6 then 0.055
  else if sens = 7 then 0.042
  else 0.02 + (10 - (sens : ℝ)) * 0.003

/-- `neckThreshold`: degree threshold below which the neck warning fires. -/
def neckThreshold (isWriting : Bool) (sens : ℤ) : ℝ :=
  if isWriting then 110
  else if sens ≤ 4 then 130 + ((sens : ℝ) - 1) * 5
  else if sens = 5 then 150
  else 152 + ((sens : ℝ) - 6)

/-- `headSideThreshold`: lateral head-offset threshold. -/
def headSideThreshold (isWriting : Bool) (sens : ℤ) : ℝ :=
  if isWriting then 0.20
  else if sens = 5 then 0.135
  else 0.16 - ((sens : ℝ) - 1) * 0.01

/-- `raisedShoulderThreshold`. -/
def raisedShoulderThreshold (sens : ℤ) : ℝ :=
  if sens = 5 then 0.026 else 0.028 - ((sens : ℝ) - 1) * 0.002

/-- `earShoulderRatio` in the source:
`sens === 5 ? 0.72 : 1 - (0.18 + (sens - 1) * 0.015)`. -/
def earShoulderFrac (sens : ℤ) : ℝ :=
  if sens = 5 then 0.72 else 1 - (0.18 + ((sens : ℝ) - 1) * 0.015)

/- Classification conditions, in source order. -/

/-- Stand-up override: current hips present (indices 23, 24 defined, i.e. the
landmark list has ≥ 25 entries), `bTorsoExtent > 0.01`,
`torsoExtent > bTorsoExtent * 1.12`, and `hipCenterY < bHipCenterY - 0.04`. -/
def standUpCond (b p : Pose) : Prop :=
  25 ≤ p.length ∧ 0.01 < torsoExtent b ∧ torsoExtent b * 1.12 < torsoExtent p ∧
    hipCenterY p < hipCenterY b - 0.04

/-- Moved-away override: `shoulderDist < bShoulderDist * 0.62`. -/
def movedAwayCond (b p : Pose) : Prop := shoulderDist p < shoulderDist b * 0.62

/-- `isRaisedByHeight = shoulderHeight < bShoulderHeight - raisedShoulderThreshold`. -/
def isRaisedByHeight (sens : ℤ) (b p : Pose) : Prop :=
  shoulderHeight p < shoulderHeight b - raisedShoulderThreshold sens

/-- `isRaisedByEarDist = bAvgEarShoulderDist > 0.015 &&
avgEarShoulderDist < bAvgEarShoulderDist * earShoulderRatio`. -/
def isRaisedByEarDist (sens : ℤ) (b p : Pose) : Prop :=
  0.015 < avgEarShoulderDist b ∧
    avgEarShoulderDist p < avgEarShoulderDist b * earShoulderFrac sens

/-- `isRaisedShoulders = isRaisedByHeight || isRaisedByEarDist`. -/
def raisedShouldersCond (sens : ℤ) (b p : Pose) : Prop :=
  isRaisedByHeight sens b p ∨ isRaisedByEarDist sens b p

/-- The four boolean flags computed by the classifier for one visible frame. -/
structure Flags where
  isWarning : Bool
  isAlarm : Bool
  isNeckWarning : Bool
  isRaisedShoulders : Bool

/-- The flag computation of `onResults`, mirroring the mutation order of the
source: initialize all flags false; with a baseline run the alarm, slouch,
neck-angle and head-sideways checks, then the stand-up and moved-away
overrides (each clearing warning and alarm), then the raised-shoulders
recheck (re-setting warning); finally writing mode forces every flag false. -/
def classifyFlags (isWriting : Bool) (sens : ℤ) (baseline : Option Pose) (p : Pose) :
    Flags :=
  let w0 : Bool := false
  let a0 : Bool := false
  let nw0 : Bool := false
  let r0 : Bool := false
  let f : Flags :=
    match baseline with
    | none => ⟨w0, a0, nw0, r0⟩
    | some b =>
      let a1 := if shoulderDist b * zThreshold sens < shoulderDist p then true else a0
      let w1 := if shoulderHeight b + slouchThreshold sens p < shoulderHeight p then
        true else w0
      let w2 := if neckAngle isWriting p < neckThreshold isWriting sens then true else w1
      let nw1 := if neckAngle isWriting p < neckThreshold isWriting sens then true else nw0
      let w3 := if headSideThreshold isWriting sens < headSideOffset p then true else w2
      let nw2 := if headSideThreshold isWriting sens < headSideOffset p then true else nw1
      let w4 := if standUpCond b p then false else w3
      let a2 := if standUpCond b p then false else a1
      let w5 := if movedAwayCond b p then false else w4
      let a3 := if movedAwayCond b p then false else a2
      let r1 := if raisedShouldersCond sens b p then true else r0
      let w6 := r1 || w5
      ⟨w6, a3, nw2, r1⟩
  if isWriting then ⟨false, false, false, false⟩ else f

/-- `Z_DISTANCE_DEFAULT = 55`. -/
def Z_DISTANCE_DEFAULT : ℝ := 55

/-- `screenDistanceDisplay`: 55 without a baseline or with a degenerate
baseline span, else `55 * (bShoulderDist / shoulderDist)`. -/
def screenDistanceDisplay (baseline : Option Pose) (p : Pose) : ℝ :=
  match baseline with
  | some b =>
    if 0 < shoulderDist b then Z_DISTANCE_DEFAULT * (shoulderDist b / shoulderDist p)
    else Z_DISTANCE_DEFAULT
  | none => Z_DISTANCE_DEFAULT

/-- The published output record. -/
structure PostureMetrics where
  neckAngle : ℝ
  screenDistance : ℝ
  slouchFactor : ℝ
  isOptimal : Bool
  isWarning : Bool
  isAlarm : Bool
  isNeckWarning : Bool
  personVisible : Bool

/-- The metrics record built on the visible path of `onResults`. -/
def analyze (isWriting : Bool) (sens : ℤ) (baseline : Option Pose) (p : Pose) :
    PostureMetrics :=
  let f := classifyFlags isWriting sens baseline p
  { neckAngle := neckAngle isWriting p
    screenDistance := screenDistanceDisplay baseline p
    slouchFactor := shoulderHeight p
    isOptimal := !f.isWarning && !f.isAlarm
    isWarning := f.isWarning
    isAlarm := f.isAlarm
    isNeckWarning := f.isNeckWarning
    personVisible := true }

/-- The neutral record emitted when nobody is (really) visible.  The source
object literal omits `isNeckWarning`; the resulting `undefined` is falsy, so
it is modelled as `false`. -/
def neutralMetrics : PostureMetrics :=
  { neckAngle := 0
    screenDistance := 0
    slouchFactor := 0
    isOptimal := true
    isWarning := false
    isAlarm := false
    isNeckWarning := false
    personVisible := false }

/-- One `onResults` invocation, restricted to its observable effect: the
optionally published metrics record and the updated `lastUpdateRef` value.
`now - lastUpdate > 100` gates every publication. -/
def onResultsStep (isWriting : Bool) (sens : ℤ) (baseline : Option Pose)
    (lastUpdate now : ℤ) (poseLandmarks : Option Pose) :
    Option PostureMetrics × ℤ :=
  match poseLandmarks with
  | none =>
    if 100 < now - lastUpdate then (some neutralMetrics, now) else (none, lastUpdate)
  | some landmarks =>
    if isPersonReallyVisible landmarks = false then
      if 100 < now - lastUpdate then (some neutralMetrics, now) else (none, lastUpdate)
    else
      if 100 < now - lastUpdate then
        (some (analyze isWriting sens baseline landmarks), now)
      else (none, lastUpdate)

/-- Frame-stream processing: fold `onResultsStep` over timestamped frames,
collecting the published events with their publication times. -/
def processFrames (isWriting : Bool) (sens : ℤ) (baseline : Option Pose) :
    List (ℤ × Option Pose) → ℤ → List (ℤ × PostureMetrics)
  | [], _ => []
  | (t, f) :: rest, lastUpdate =>
    let r := onResultsStep isWriting sens baseline lastUpdate t f
    match r.1 with
    | some m => (t, m) :: processFrames isWriting sens baseline rest r.2
    | none => processFrames isWriting sens baseline rest r.2

/-- Frames with absent poses spaced 150 ms apart, starting at `t`. -/
def spacedFrames : ℕ → ℤ → List (ℤ × Option Pose)
  | 0, _ => []
  | n + 1, t => (t, none) :: spacedFrames n (t + 150)

/- Calibration: the listener-swap of `calibrate()` as a one-shot state machine.
`calibrate` replaces the estimator listener by a capture listener (armed);
the capture listener stores the next results that carry any `poseLandmarks`
as the baseline and restores the original listener (disarmed); results
without landmarks leave the capture listener in place. -/

/-- Baseline store plus the armed/idle status of the capture listener. -/
structure CalibState where
  baseline : Option Pose
  armed : Bool

/-- `calibrate()`: arm the one-shot baseline capture. -/
def calibrate (s : CalibState) : CalibState := { s with armed := true }

/-- Delivery of one estimator result to the currently installed listener. -/
def deliverResults (s : CalibState) (poseLandmarks : Option Pose) : CalibState :=
  if s.armed then
    match poseLandmarks with
    | some lms => { baseline := some lms, armed := false }
    | none => s
  else s

/- Helper lemmas: evaluation of square roots and of `atan2` at the axis
directions used by the concrete poses below, and the range of `atan2`. -/

lemma sqrt_eval {a b : ℝ} (h : a = b ^ 2) (hb : 0 ≤ b) : Real.sqrt a = b := by
  rw [h, Real.sqrt_sq hb]

lemma atan2_zero_of_pos {x : ℝ} (hx : 0 < x) : atan2 0 x = 0 := by
  simp [atan2, hx]

lemma atan2_pos_zero {y : ℝ} (hy : 0 < y) : atan2 y 0 = π / 2 := by
  simp [atan2, hy, lt_irrefl]

lemma atan2_neg_zero {y : ℝ} (hy : y < 0) : atan2 y 0 = -(π / 2) := by
  simp [atan2, hy, hy.not_lt, lt_irrefl]

lemma atan2_mem (y x : ℝ) : -π < atan2 y x ∧ atan2 y x ≤ π := by
  have hpi := Real.pi_pos
  have h1 := Real.arctan_lt_pi_div_two (y / x)
  have h2 := Real.neg_pi_div_two_lt_arctan (y / x)
  unfold atan2
  split_ifs with hx hxy hxy2 hzy hzy2
  · exact ⟨by linarith, by linarith⟩
  · have hq : y / x ≤ 0 := div_nonpos_of_nonneg_of_nonpos hxy.2 hxy.1.le
    have h3 : arctan (y / x) ≤ arctan 0 := Real.arctan_strictMono.monotone hq
    rw [Real.arctan_zero] at h3
    exact ⟨by linarith, by linarith⟩
  · have hq : 0 < y / x := div_pos_of_neg_of_neg hxy2.2 hxy2.1
    have h3 : arctan 0 < arctan (y / x) := Real.arctan_strictMono hq
    rw [Real.arctan_zero] at h3
    exact ⟨by linarith, by linarith⟩
  · exact ⟨by linarith, by linarith⟩
  · exact ⟨by linarith, by linarith⟩
  · exact ⟨by linarith, by linarith⟩

lemma calculateAngle_range (p1 p2 p3 : Pt) :
    0 ≤ calculateAngle p1 p2 p3 ∧ calculateAngle p1 p2 p3 ≤ 180 := by
  have hpi := Real.pi_pos
  obtain ⟨ha1, ha2⟩ := atan2_mem (p3.y - p2.y) (p3.x - p2.x)
  obtain ⟨hb1, hb2⟩ := atan2_mem (p1.y - p2.y) (p1.x - p2.x)
  simp only [calculateAngle]
  set r := atan2 (p3.y - p2.y) (p3.x - p2.x) - atan2 (p1.y - p2.y) (p1.x - p2.x) with hr
  have h0 : 0 ≤ |r * 180 / π| := abs_nonneg _
  have habs : |r * 180 / π| < 360 := by
    rw [abs_div, abs_of_pos hpi, div_lt_iff₀ hpi, abs_mul]
    have hrlt : |r| < 2 * π := abs_lt.mpr ⟨by linarith, by linarith⟩
    have h180 : |(180 : ℝ)| = 180 := by norm_num
    rw [h180]
    nlinarith
  split_ifs with h
  · exact ⟨by linarith, by linarith⟩
  · exact ⟨h0, by linarith⟩

lemma calculateAngle_vertical {x y y' : ℝ} (h : y < y') :
    calculateAngle ⟨x, y - 0.1⟩ ⟨x, y⟩ ⟨x, y'⟩ = 180 := by
  have h1 : atan2 (y' - y) (x - x) = π / 2 := by
    rw [show x - x = (0 : ℝ) by ring]
    exact atan2_pos_zero (by linarith)
  have h2 : atan2 (y - 0.1 - y) (x - x) = -(π / 2) := by
    rw [show x - x = (0 : ℝ) by ring]
    exact atan2_neg_zero (by norm_num)
  simp only [calculateAngle]
  rw [h1, h2, show π / 2 - -(π / 2) = π by ring, mul_comm π 180, mul_div_assoc,
    div_self Real.pi_ne_zero, mul_one]
  norm_num

/- Characterizations of the classifier flags. -/

lemma classifyFlags_none (w : Bool) (s : ℤ) (p : Pose) :
    classifyFlags w s none p = ⟨false, false, false, false⟩ := by
  cases w <;> simp [classifyFlags]

lemma classifyFlags_writing (s : ℤ) (b : Option Pose) (p : Pose) :
    classifyFlags true s b p = ⟨false, false, false, false⟩ := by
  simp [classifyFlags]

lemma classifyFlags_isWarning (s : ℤ) (b p : Pose) :
    (classifyFlags false s (some b) p).isWarning = true ↔
      (raisedShouldersCond s b p ∨
        (¬ standUpCond b p ∧ ¬ movedAwayCond b p ∧
          (shoulderHeight b + slouchThreshold s p < shoulderHeight p ∨
           neckAngle false p < neckThreshold false s ∨
           headSideThreshold false s < headSideOffset p))) := by
  simp only [classifyFlags, Bool.false_eq_true, if_false]
  split_ifs <;> simp_all

lemma classifyFlags_isAlarm (s : ℤ) (b p : Pose) :
    (classifyFlags false s (some b) p).isAlarm = true ↔
      (shoulderDist b * zThreshold s < shoulderDist p ∧
        ¬ standUpCond b p ∧ ¬ movedAwayCond b p) := by
  simp only [classifyFlags, Bool.false_eq_true, if_false]
  split_ifs <;> simp_all

lemma analyze_personVisible (w : Bool) (s : ℤ) (b : Option Pose) (p : Pose) :
    (analyze w s b p).personVisible = true := rfl

lemma analyze_isWarning (w : Bool) (s : ℤ) (b : Option Pose) (p : Pose) :
    (analyze w s b p).isWarning = (classifyFlags w s b p).isWarning := rfl

lemma analyze_isAlarm (w : Bool) (s : ℤ) (b : Option Pose) (p : Pose) :
    (analyze w s b p).isAlarm = (classifyFlags w s b p).isAlarm := rfl

lemma analyze_isOptimal (w : Bool) (s : ℤ) (b : Option Pose) (p : Pose) :
    (analyze w s b p).isOptimal =
      (!(analyze w s b p).isWarning && !(analyze w s b p).isAlarm) := rfl

/- Concrete poses used to instantiate the theorems. -/

/-- Landmark with full confidence (no visibility value reported). -/
def lmk (x y : ℝ) : Landmark := ⟨x, y, none⟩

/-- Filler landmark for indices the analysis never reads. -/
def filler : Landmark := lmk 0.5 0.5

/-- A centered, confident, spread-shoulder pose (13 landmarks). -/
def pose0 : Pose :=
  [lmk 0.5 0.2, filler, filler, filler, filler, filler, filler,
   lmk 0.4 0.25, lmk 0.6 0.25, filler, filler,
   lmk 0.3 0.5, lmk 0.7 0.5]

/-- A degenerate detection: 13 landmarks collapsed onto one point, so the
shoulder span is zero and the visibility gate rejects it. -/
def phantomPose : Pose :=
  [filler, filler, filler, filler, filler, filler, filler,
   filler, filler, filler, filler, filler, filler]

/-- Baseline for the sensitivity-monotonicity scenario: level ears at y = 0.3,
shoulders at (0.3, 0.5) and (0.7, 0.5), nose centered. -/
def basePose1 : Pose :=
  [lmk 0.5 0.35, filler, filler, filler, filler, filler, filler,
   lmk 0.4 0.3, lmk 0.6 0.3, filler, filler,
   lmk 0.3 0.5, lmk 0.7 0.5]

/-- Same geometry as `basePose1` but with the nose moved sideways to
x = 0.632, giving a head lateral offset of 0.132. -/
def currPose1 : Pose :=
  [lmk 0.632 0.35, filler, filler, filler, filler, filler, filler,
   lmk 0.4 0.3, lmk 0.6 0.3, filler, filler,
   lmk 0.3 0.5, lmk 0.7 0.5]

/-- Baseline for the override scenario: shoulder span 0.4, shoulder height 0.4,
ear-to-shoulder vertical gap 0.2. -/
def basePose3 : Pose :=
  [lmk 0.5 0.3, filler, filler, filler, filler, filler, filler,
   lmk 0.4 0.2, lmk 0.6 0.2, filler, filler,
   lmk 0.3 0.4, lmk 0.7 0.4]

/-- Current pose for the override counterexample: span 0.1 (moved away),
shoulder height 0.6 (slouch condition), ears dropped to y = 0.55 so the
ear-to-shoulder gap shrinks to 0.05 (raised-shoulders by ear distance). -/
def currPose3 : Pose :=
  [lmk 0.5 0.56, filler, filler, filler, filler, filler, filler,
   lmk 0.45 0.55, lmk 0.55 0.55, filler, filler,
   lmk 0.45 0.6, lmk 0.55 0.6]

/-- Current pose for the amended override theorem: span 0.1 (moved away),
shoulder height 0.6 (slouch condition), ears high at y = 0.2 so no
raised-shoulders condition fires. -/
def witnessPose3 : Pose :=
  [lmk 0.5 0.3, filler, filler, filler, filler, filler, filler,
   lmk 0.45 0.2, lmk 0.55 0.2, filler, filler,
   lmk 0.45 0.6, lmk 0.55 0.6]

/-- A visible pose whose published neck angle is negative: the nose at
y = 0.9 lies far below the ear midpoint (y = 0.2) while the ear-to-shoulder
vertical span is only 0.02, making the chin-down penalty huge. -/
def negPose : Pose :=
  [lmk 0.5 0.9, filler, filler, filler, filler, filler, filler,
   lmk 0.4 0.2, lmk 0.6 0.2, filler, filler,
   lmk 0.3 0.22, lmk 0.7 0.22]

/- Visibility-gate evaluations. -/

lemma inFrame_lmk (x y : ℝ) (h1 : -0.05 ≤ x) (h2 : x ≤ 1.05) (h3 : -0.05 ≤ y)
    (h4 : y ≤ 1.05) : inFrame (lmk x y) := ⟨h1, h2, h3, h4⟩

lemma visOk_lmk (x y : ℝ) : visOk (lmk x y) := trivial

lemma visible_of (lms : Pose) (hlen : ¬ lms.length < 13)
    (hf : inFrame (lm lms 0) ∧ inFrame (lm lms 11) ∧ inFrame (lm lms 12))
    (hv : visOk (lm lms 0) ∧ visOk (lm lms 11) ∧ visOk (lm lms 12))
    (hd : ¬ Real.sqrt (((lm lms 12).x - (lm lms 11).x) ^ 2 +
      ((lm lms 12).y - (lm lms 11).y) ^ 2) < 0.02) :
    isPersonReallyVisible lms = true := by
  simp only [isPersonReallyVisible]
  rw [if_neg hlen, if_neg (not_not_intro hf), if_neg (not_not_intro hv), if_neg hd]

lemma sqrt_04 : Real.sqrt (((0.7 : ℝ) - 0.3) ^ 2 + ((0.5 : ℝ) - 0.5) ^ 2) = 0.4 :=
  sqrt_eval (by norm_num) (by norm_num)

lemma pose0_visible : isPersonReallyVisible pose0 = true := by
  apply visible_of
  · norm_num [pose0]
  · exact ⟨inFrame_lmk 0.5 0.2 (by norm_num) (by norm_num) (by norm_num) (by norm_num),
      inFrame_lmk 0.3 0.5 (by norm_num) (by norm_num) (by norm_num) (by norm_num),
      inFrame_lmk 0.7 0.5 (by norm_num) (by norm_num) (by norm_num) (by norm_num)⟩
  · exact ⟨visOk_lmk 0.5 0.2, visOk_lmk 0.3 0.5, visOk_lmk 0.7 0.5⟩
  · show ¬ Real.sqrt (((0.7 : ℝ) - 0.3) ^ 2 + ((0.5 : ℝ) - 0.5) ^ 2) < 0.02
    rw [sqrt_04]
    norm_num

lemma currPose1_visible : isPersonReallyVisible currPose1 = true := by
  apply visible_of
  · norm_num [currPose1]
  · exact ⟨inFrame_lmk 0.632 0.35 (by norm_num) (by norm_num) (by norm_num) (by norm_num),
      inFrame_lmk 0.3 0.5 (by norm_num) (by norm_num) (by norm_num) (by norm_num),
      inFrame_lmk 0.7 0.5 (by norm_num) (by norm_num) (by norm_num) (by norm_num)⟩
  · exact ⟨visOk_lmk 0.632 0.35, visOk_lmk 0.3 0.5, visOk_lmk 0.7 0.5⟩
  · show ¬ Real.sqrt (((0.7 : ℝ) - 0.3) ^ 2 + ((0.5 : ℝ) - 0.5) ^ 2) < 0.02
    rw [sqrt_04]
    norm_num

lemma sqrt_01 : Real.sqrt (((0.55 : ℝ) - 0.45) ^ 2 + ((0.6 : ℝ) - 0.6) ^ 2) = 0.1 :=
  sqrt_eval (by norm_num) (by norm_num)

lemma currPose3_visible : isPersonReallyVisible currPose3 = true := by
  apply visible_of
  · norm_num [currPose3]
  · exact ⟨inFrame_lmk 0.5 0.56 (by norm_num) (by norm_num) (by norm_num) (by norm_num),
      inFrame_lmk 0.45 0.6 (by norm_num) (by norm_num) (by norm_num) (by norm_num),
      inFrame_lmk 0.55 0.6 (by norm_num) (by norm_num) (by norm_num) (by norm_num)⟩
  · exact ⟨visOk_lmk 0.5 0.56, visOk_lmk 0.45 0.6, visOk_lmk 0.55 0.6⟩
  · show ¬ Real.sqrt (((0.55 : ℝ) - 0.45) ^ 2 + ((0.6 : ℝ) - 0.6) ^ 2) < 0.02
    rw [sqrt_01]
    norm_num

lemma witnessPose3_visible : isPersonReallyVisible witnessPose3 = true := by
  apply visible_of
  · norm_num [witnessPose3]
  · exact ⟨inFrame_lmk 0.5 0.3 (by norm_num) (by norm_num) (by norm_num) (by norm_num),
      inFrame_lmk 0.45 0.6 (by norm_num) (by norm_num) (by norm_num) (by norm_num),
      inFrame_lmk 0.55 0.6 (by norm_num) (by norm_num) (by norm_num) (by norm_num)⟩
  · exact ⟨visOk_lmk 0.5 0.3, visOk_lmk 0.45 0.6, visOk_lmk 0.55 0.6⟩
  · show ¬ Real.sqrt (((0.55 : ℝ) - 0.45) ^ 2 + ((0.6 : ℝ) - 0.6) ^ 2) < 0.02
    rw [sqrt_01]
    norm_num

lemma sqrt_04' : Real.sqrt (((0.7 : ℝ) - 0.3) ^ 2 + ((0.22 : ℝ) - 0.22) ^ 2) = 0.4 :=
  sqrt_eval (by norm_num) (by norm_num)

lemma negPose_visible : isPersonReallyVisible negPose = true := by
  apply visible_of
  · norm_num [negPose]
  · exact ⟨inFrame_lmk 0.5 0.9 (by norm_num) (by norm_num) (by norm_num) (by norm_num),
      inFrame_lmk 0.3 0.22 (by norm_num) (by norm_num) (by norm_num) (by norm_num),
      inFrame_lmk 0.7 0.22 (by norm_num) (by norm_num) (by norm_num) (by norm_num)⟩
  · exact ⟨visOk_lmk 0.5 0.9, visOk_lmk 0.3 0.22, visOk_lmk 0.7 0.22⟩
  · show ¬ Real.sqrt (((0.7 : ℝ) - 0.3) ^ 2 + ((0.22 : ℝ) - 0.22) ^ 2) < 0.02
    rw [sqrt_04']
    norm_num

lemma phantomPose_invisible : isPersonReallyVisible phantomPose = false := by
  have hd : Real.sqrt (((lm phantomPose 12).x - (lm phantomPose 11).x) ^ 2 +
      ((lm phantomPose 12).y - (lm phantomPose 11).y) ^ 2) < 0.02 := by
    show Real.sqrt (((0.5 : ℝ) - 0.5) ^ 2 + ((0.5 : ℝ) - 0.5) ^ 2) < 0.02
    rw [show ((0.5 : ℝ) - 0.5) ^ 2 + ((0.5 : ℝ) - 0.5) ^ 2 = 0 by norm_num,
      Real.sqrt_zero]
    norm_num
  simp only [isPersonReallyVisible]
  rw [if_neg (by norm_num [phantomPose]),
    if_neg (not_not_intro ⟨inFrame_lmk 0.5 0.5 (by norm_num) (by norm_num) (by norm_num)
        (by norm_num),
      inFrame_lmk 0.5 0.5 (by norm_num) (by norm_num) (by norm_num) (by norm_num),
      inFrame_lmk 0.5 0.5 (by norm_num) (by norm_num) (by norm_num) (by norm_num)⟩),
    if_neg (not_not_intro ⟨visOk_lmk 0.5 0.5, visOk_lmk 0.5 0.5, visOk_lmk 0.5 0.5⟩),
    if_pos hd]

/- Metric evaluations on the sensitivity-monotonicity scenario. -/

lemma shoulderDist_basePose1 : shoulderDist basePose1 = 0.4 := by
  show Real.sqrt (((0.3 : ℝ) - 0.7) ^ 2 + ((0.5 : ℝ) - 0.5) ^ 2) = 0.4
  exact sqrt_eval (by norm_num) (by norm_num)

lemma shoulderDist_currPose1 : shoulderDist currPose1 = 0.4 := by
  show Real.sqrt (((0.3 : ℝ) - 0.7) ^ 2 + ((0.5 : ℝ) - 0.5) ^ 2) = 0.4
  exact sqrt_eval (by norm_num) (by norm_num)

lemma shoulderHeight_basePose1 : shoulderHeight basePose1 = 0.5 := by
  show ((0.5 : ℝ) + 0.5) / 2 = 0.5
  norm_num

lemma shoulderHeight_currPose1 : shoulderHeight currPose1 = 0.5 := by
  show ((0.5 : ℝ) + 0.5) / 2 = 0.5
  norm_num

lemma headSideOffset_currPose1 : headSideOffset currPose1 = 0.132 := by
  show |(0.632 : ℝ) - (0.3 + 0.7) / 2| = 0.132
  rw [show (0.632 : ℝ) - (0.3 + 0.7) / 2 = 0.132 by norm_num]
  exact abs_of_pos (by norm_num)

lemma avgEarShoulderDist_basePose1 : avgEarShoulderDist basePose1 = 0.2 := by
  show (((0.5 : ℝ) - 0.3) + ((0.5 : ℝ) - 0.3)) / 2 = 0.2
  norm_num

lemma avgEarShoulderDist_currPose1 : avgEarShoulderDist currPose1 = 0.2 := by
  show (((0.5 : ℝ) - 0.3) + ((0.5 : ℝ) - 0.3)) / 2 = 0.2
  norm_num

lemma currPose1_sideways : isSideways currPose1 := by
  show (0.07 : ℝ) ≤ |(0.632 : ℝ) - (0.4 + 0.6) / 2|
  rw [show (0.632 : ℝ) - (0.4 + 0.6) / 2 = 0.132 by norm_num,
    abs_of_pos (by norm_num : (0 : ℝ) < 0.132)]
  norm_num

lemma neckAngle_currPose1 : neckAngle false currPose1 = 180 := by
  have e1 : earMidX currPose1 = 0.5 := by
    show ((0.4 : ℝ) + 0.6) / 2 = 0.5
    norm_num
  have e2 : earMidY currPose1 = 0.3 := by
    show ((0.3 : ℝ) + 0.3) / 2 = 0.3
    norm_num
  have e3 : shoulderMidX currPose1 = 0.5 := by
    show ((0.3 : ℝ) + 0.7) / 2 = 0.5
    norm_num
  have e4 : shoulderMidY currPose1 = 0.5 := by
    show ((0.5 : ℝ) + 0.5) / 2 = 0.5
    norm_num
  have hfwd : forwardNeckAngle currPose1 = 180 := by
    unfold forwardNeckAngle
    rw [e1, e2, e3, e4]
    exact calculateAngle_vertical (by norm_num)
  have e5 : earShoulderVertDist currPose1 = 0.2 := by
    unfold earShoulderVertDist
    rw [e2, e4, show (0.5 : ℝ) - 0.3 = 0.2 by norm_num]
    exact max_eq_right (by norm_num)
  have hnd : noseDropFrac currPose1 = 0.25 := by
    unfold noseDropFrac
    rw [e2, e5, show (lm currPose1 0).y = (0.35 : ℝ) from rfl]
    norm_num
  have hchin : chinDownPenalty false currPose1 = 0 := by
    unfold chinDownPenalty
    rw [if_neg Bool.false_ne_true, hnd,
      show ((0.25 : ℝ) - 0.45) * 160 = -32 by norm_num]
    exact max_eq_left (by norm_num)
  have habs : |(0.4 : ℝ) - 0.6| = 0.2 := by
    rw [show (0.4 : ℝ) - 0.6 = -0.2 by norm_num, abs_neg,
      abs_of_pos (by norm_num : (0 : ℝ) < 0.2)]
  have hdy : earDy currPose1 = 0 := by
    show |(0.3 : ℝ) - 0.3| = 0
    norm_num
  have hdx : earDx currPose1 = 0.2 := by
    show (if |(0.4 : ℝ) - 0.6| = 0 then 0.001 else |(0.4 : ℝ) - 0.6|) = 0.2
    rw [habs]
    norm_num
  have htilt : lateralTiltDeg currPose1 = 0 := by
    unfold lateralTiltDeg
    rw [hdy, hdx, atan2_zero_of_pos (by norm_num : (0 : ℝ) < 0.2)]
    norm_num
  unfold neckAngle
  rw [hfwd, hchin, htilt]
  norm_num

/- Threshold evaluations at the sensitivities of the scenario. -/

lemma headSideThreshold_4 : headSideThreshold false 4 = 0.13 := by
  norm_num [headSideThreshold]

lemma headSideThreshold_5 : headSideThreshold false 5 = 0.135 := by
  norm_num [headSideThreshold]

lemma neckThreshold_4 : neckThreshold false 4 = 145 := by
  norm_num [neckThreshold]

lemma neckThreshold_5 : neckThreshold false 5 = 150 := by
  norm_num [neckThreshold]

lemma raisedShoulderThreshold_4 : raisedShoulderThreshold 4 = 0.022 := by
  norm_num [raisedShoulderThreshold]

lemma raisedShoulderThreshold_5 : raisedShoulderThreshold 5 = 0.026 := by
  norm_num [raisedShoulderThreshold]

lemma earShoulderFrac_4 : earShoulderFrac 4 = 0.775 := by
  norm_num [earShoulderFrac]

lemma earShoulderFrac_5 : earShoulderFrac 5 = 0.72 := by
  norm_num [earShoulderFrac]

lemma slouchThreshold_currPose1_5 : slouchThreshold 5 currPose1 = 0.035 := by
  have hu : useStrictSlouch 5 currPose1 := Or.inr ⟨currPose1_sideways, by norm_num⟩
  unfold slouchThreshold
  rw [if_neg (not_not_intro hu), if_neg (by norm_num : ¬(5 : ℤ) = 6),
    if_neg (by norm_num : ¬(5 : ℤ) = 7)]
  norm_num

lemma slouchThreshold_currPose1_4_pos : 0 < slouchThreshold 4 currPose1 := by
  have hu : ¬ useStrictSlouch 4 currPose1 := by
    rintro (h6 | ⟨_, h5⟩)
    · norm_num at h6
    · norm_num at h5
  unfold slouchThreshold
  rw [if_pos hu]
  unfold toleranceFactor
  norm_num

/- Flag evaluations for the sensitivity-monotonicity counterexample. -/

lemma currPose1_notStandUp : ¬ standUpCond basePose1 currPose1 := by
  intro h
  have h25 := h.1
  norm_num [currPose1] at h25

lemma currPose1_notMovedAway : ¬ movedAwayCond basePose1 currPose1 := by
  intro h
  unfold movedAwayCond at h
  rw [shoulderDist_currPose1, shoulderDist_basePose1] at h
  norm_num at h

lemma currPose1_warning_s4 :
    (classifyFlags false 4 (some basePose1) currPose1).isWarning = true := by
  rw [classifyFlags_isWarning]
  refine Or.inr ⟨currPose1_notStandUp, currPose1_notMovedAway, Or.inr (Or.inr ?_)⟩
  rw [headSideOffset_currPose1, headSideThreshold_4]
  norm_num

lemma currPose1_noWarning_s5 :
    (classifyFlags false 5 (some basePose1) currPose1).isWarning = false := by
  rw [← Bool.not_eq_true, classifyFlags_isWarning]
  rintro (hr | ⟨hsu, hmv, hs | hn | hh⟩)
  · rcases hr with hh' | he
    · unfold isRaisedByHeight at hh'
      rw [shoulderHeight_currPose1, shoulderHeight_basePose1,
        raisedShoulderThreshold_5] at hh'
      norm_num at hh'
    · rcases he with ⟨_, he2⟩
      rw [avgEarShoulderDist_currPose1, avgEarShoulderDist_basePose1,
        earShoulderFrac_5] at he2
      norm_num at he2
  · rw [shoulderHeight_currPose1, shoulderHeight_basePose1,
      slouchThreshold_currPose1_5] at hs
    norm_num at hs
  · rw [neckAngle_currPose1, neckThreshold_5] at hn
    norm_num at hn
  · rw [headSideOffset_currPose1, headSideThreshold_5] at hh
    norm_num at hh

/- Metric evaluations on the override scenario. -/

lemma shoulderDist_basePose3 : shoulderDist basePose3 = 0.4 := by
  show Real.sqrt (((0.3 : ℝ) - 0.7) ^ 2 + ((0.4 : ℝ) - 0.4) ^ 2) = 0.4
  exact sqrt_eval (by norm_num) (by norm_num)

lemma shoulderDist_currPose3 : shoulderDist currPose3 = 0.1 := by
  show Real.sqrt (((0.45 : ℝ) - 0.55) ^ 2 + ((0.6 : ℝ) - 0.6) ^ 2) = 0.1
  exact sqrt_eval (by norm_num) (by norm_num)

lemma shoulderDist_witnessPose3 : shoulderDist witnessPose3 = 0.1 := by
  show Real.sqrt (((0.45 : ℝ) - 0.55) ^ 2 + ((0.6 : ℝ) - 0.6) ^ 2) = 0.1
  exact sqrt_eval (by norm_num) (by norm_num)

lemma shoulderHeight_basePose3 : shoulderHeight basePose3 = 0.4 := by
  show ((0.4 : ℝ) + 0.4) / 2 = 0.4
  norm_num

lemma shoulderHeight_currPose3 : shoulderHeight currPose3 = 0.6 := by
  show ((0.6 : ℝ) + 0.6) / 2 = 0.6
  norm_num

lemma shoulderHeight_witnessPose3 : shoulderHeight witnessPose3 = 0.6 := by
  show ((0.6 : ℝ) + 0.6) / 2 = 0.6
  norm_num

lemma avgEarShoulderDist_basePose3 : avgEarShoulderDist basePose3 = 0.2 := by
  show (((0.4 : ℝ) - 0.2) + ((0.4 : ℝ) - 0.2)) / 2 = 0.2
  norm_num

lemma avgEarShoulderDist_currPose3 : avgEarShoulderDist currPose3 = 0.05 := by
  show (((0.6 : ℝ) - 0.55) + ((0.6 : ℝ) - 0.55)) / 2 = 0.05
  norm_num

lemma avgEarShoulderDist_witnessPose3 : avgEarShoulderDist witnessPose3 = 0.4 := by
  show (((0.6 : ℝ) - 0.2) + ((0.6 : ℝ) - 0.2)) / 2 = 0.4
  norm_num

lemma currPose3_notSideways : ¬ isSideways currPose3 := by
  unfold isSideways
  rw [show (lm currPose3 0).x - earMidX currPose3 = (0.5 : ℝ) - (0.45 + 0.55) / 2
      from rfl,
    show (0.5 : ℝ) - (0.45 + 0.55) / 2 = 0 by norm_num, abs_zero]
  norm_num

lemma witnessPose3_notSideways : ¬ isSideways witnessPose3 := by
  unfold isSideways
  rw [show (lm witnessPose3 0).x - earMidX witnessPose3 = (0.5 : ℝ) - (0.45 + 0.55) / 2
      from rfl,
    show (0.5 : ℝ) - (0.45 + 0.55) / 2 = 0 by norm_num, abs_zero]
  norm_num

lemma slouchThreshold_currPose3 : slouchThreshold 5 currPose3 = 0.03 + 0.07 * (5 / 9) := by
  have hu : ¬ useStrictSlouch 5 currPose3 := by
    rintro (h6 | ⟨hsw, _⟩)
    · norm_num at h6
    · exact currPose3_notSideways hsw
  unfold slouchThreshold
  rw [if_pos hu]
  unfold toleranceFactor
  norm_num

lemma slouchThreshold_witnessPose3 :
    slouchThreshold 5 witnessPose3 = 0.03 + 0.07 * (5 / 9) := by
  have hu : ¬ useStrictSlouch 5 witnessPose3 := by
    rintro (h6 | ⟨hsw, _⟩)
    · norm_num at h6
    · exact witnessPose3_notSideways hsw
  unfold slouchThreshold
  rw [if_pos hu]
  unfold toleranceFactor
  norm_num

lemma zThreshold_5 : zThreshold 5 = 1.17 := by
  norm_num [zThreshold]

lemma currPose3_slouchCond :
    shoulderHeight basePose3 + slouchThreshold 5 currPose3 < shoulderHeight currPose3 := by
  rw [shoulderHeight_basePose3, shoulderHeight_currPose3, slouchThreshold_currPose3]
  norm_num

lemma currPose3_movedAway : movedAwayCond basePose3 currPose3 := by
  unfold movedAwayCond
  rw [shoulderDist_currPose3, shoulderDist_basePose3]
  norm_num

lemma currPose3_raised : raisedShouldersCond 5 basePose3 currPose3 := by
  refine Or.inr ⟨?_, ?_⟩
  · rw [avgEarShoulderDist_basePose3]
    norm_num
  · rw [avgEarShoulderDist_currPose3, avgEarShoulderDist_basePose3, earShoulderFrac_5]
    norm_num

lemma currPose3_warning :
    (classifyFlags false 5 (some basePose3) currPose3).isWarning = true := by
  rw [classifyFlags_isWarning]
  exact Or.inl currPose3_raised

lemma currPose3_noAlarm :
    (classifyFlags false 5 (some basePose3) currPose3).isAlarm = false := by
  rw [← Bool.not_eq_true, classifyFlags_isAlarm]
  rintro ⟨hz, _, _⟩
  rw [shoulderDist_currPose3, shoulderDist_basePose3, zThreshold_5] at hz
  norm_num at hz

lemma witnessPose3_slouchCond :
    shoulderHeight basePose3 + slouchThreshold 5 witnessPose3 <
      shoulderHeight witnessPose3 := by
  rw [shoulderHeight_basePose3, shoulderHeight_witnessPose3, slouchThreshold_witnessPose3]
  norm_num

lemma witnessPose3_movedAway : movedAwayCond basePose3 witnessPose3 := by
  unfold movedAwayCond
  rw [shoulderDist_witnessPose3, shoulderDist_basePose3]
  norm_num

lemma witnessPose3_notRaised : ¬ raisedShouldersCond 5 basePose3 witnessPose3 := by
  rintro (hh | ⟨_, he⟩)
  · unfold isRaisedByHeight at hh
    rw [shoulderHeight_witnessPose3, shoulderHeight_basePose3,
      raisedShoulderThreshold_5] at hh
    norm_num at hh
  · rw [avgEarShoulderDist_witnessPose3, avgEarShoulderDist_basePose3,
      earShoulderFrac_5] at he
    norm_num at he

/- Negative-neck-angle pose evaluation. -/

lemma neckAngle_negPose : neckAngle false negPose = 180 - 5528 := by
  have e1 : earMidX negPose = 0.5 := by
    show ((0.4 : ℝ) + 0.6) / 2 = 0.5
    norm_num
  have e2 : earMidY negPose = 0.2 := by
    show ((0.2 : ℝ) + 0.2) / 2 = 0.2
    norm_num
  have e3 : shoulderMidX negPose = 0.5 := by
    show ((0.3 : ℝ) + 0.7) / 2 = 0.5
    norm_num
  have e4 : shoulderMidY negPose = 0.22 := by
    show ((0.22 : ℝ) + 0.22) / 2 = 0.22
    norm_num
  have hfwd : forwardNeckAngle negPose = 180 := by
    unfold forwardNeckAngle
    rw [e1, e2, e3, e4]
    exact calculateAngle_vertical (by norm_num)
  have e5 : earShoulderVertDist negPose = 0.02 := by
    unfold earShoulderVertDist
    rw [e2, e4, show (0.22 : ℝ) - 0.2 = 0.02 by norm_num]
    exact max_eq_right (by norm_num)
  have hnd : noseDropFrac negPose = 35 := by
    unfold noseDropFrac
    rw [e2, e5, show (lm negPose 0).y = (0.9 : ℝ) from rfl]
    norm_num
  have hchin : chinDownPenalty false negPose = 5528 := by
    unfold chinDownPenalty
    rw [if_neg Bool.false_ne_true, hnd,
      show ((35 : ℝ) - 0.45) * 160 = 5528 by norm_num]
    exact max_eq_right (by norm_num)
  have habs : |(0.4 : ℝ) - 0.6| = 0.2 := by
    rw [show (0.4 : ℝ) - 0.6 = -0.2 by norm_num, abs_neg,
      abs_of_pos (by norm_num : (0 : ℝ) < 0.2)]
  have hdy : earDy negPose = 0 := by
    show |(0.2 : ℝ) - 0.2| = 0
    norm_num
  have hdx : earDx negPose = 0.2 := by
    show (if |(0.4 : ℝ) - 0.6| = 0 then 0.001 else |(0.4 : ℝ) - 0.6|) = 0.2
    rw [habs]
    norm_num
  have htilt : lateralTiltDeg negPose = 0 := by
    unfold lateralTiltDeg
    rw [hdy, hdx, atan2_zero_of_pos (by norm_num : (0 : ℝ) < 0.2)]
    norm_num
  unfold neckAngle
  rw [hfwd, hchin, htilt]
  norm_num

/- Projections of the visible-path record. -/

lemma analyze_neckAngle (w : Bool) (s : ℤ) (b : Option Pose) (p : Pose) :
    (analyze w s b p).neckAngle = neckAngle w p := rfl

lemma analyze_screenDistance (w : Bool) (s : ℤ) (b : Option Pose) (p : Pose) :
    (analyze w s b p).screenDistance = screenDistanceDisplay b p := rfl

lemma analyze_slouchFactor (w : Bool) (s : ℤ) (b : Option Pose) (p : Pose) :
    (analyze w s b p).slouchFactor = shoulderHeight p := rfl

lemma analyze_isNeckWarning (w : Bool) (s : ℤ) (b : Option Pose) (p : Pose) :
    (analyze w s b p).isNeckWarning = (classifyFlags w s b p).isNeckWarning := rfl

/- Shape lemmas for one `onResults` step. -/

lemma onResultsStep_some_eq {w : Bool} {s : ℤ} {b : Option Pose} {last now : ℤ}
    {f : Option Pose} {m : PostureMetrics} {l' : ℤ}
    (h : onResultsStep w s b last now f = (some m, l')) :
    l' = now ∧ 100 < now - last := by
  cases f with
  | none =>
    simp only [onResultsStep] at h
    split_ifs at h with ht
    · simp only [Prod.mk.injEq] at h
      exact ⟨h.2.symm, ht⟩
    · simp at h
  | some lms =>
    simp only [onResultsStep] at h
    split_ifs at h with hg ht ht2
    · simp only [Prod.mk.injEq] at h
      exact ⟨h.2.symm, ht⟩
    · simp at h
    · simp only [Prod.mk.injEq] at h
      exact ⟨h.2.symm, ht2⟩
    · simp at h

lemma onResultsStep_none_eq {w : Bool} {s : ℤ} {b : Option Pose} {last now : ℤ}
    {f : Option Pose} {l' : ℤ}
    (h : onResultsStep w s b last now f = (none, l')) : l' = last := by
  cases f with
  | none =>
    simp only [onResultsStep] at h
    split_ifs at h with ht
    · simp at h
    · simp only [Prod.mk.injEq] at h
      exact h.2.symm
  | some lms =>
    simp only [onResultsStep] at h
    split_ifs at h with hg ht ht2
    · simp at h
    · simp only [Prod.mk.injEq] at h
      exact h.2.symm
    · simp at h
    · simp only [Prod.mk.injEq] at h
      exact h.2.symm

lemma onResultsStep_some_metrics {w : Bool} {s : ℤ} {b : Option Pose} {last now : ℤ}
    {f : Option Pose} {m : PostureMetrics} {l' : ℤ}
    (h : onResultsStep w s b last now f = (some m, l')) :
    m = neutralMetrics ∨
      ∃ lms, f = some lms ∧ isPersonReallyVisible lms = true ∧ m = analyze w s b lms := by
  cases f with
  | none =>
    simp only [onResultsStep] at h
    split_ifs at h with ht
    · simp only [Prod.mk.injEq, Option.some.injEq] at h
      exact Or.inl h.1.symm
    · simp at h
  | some lms =>
    simp only [onResultsStep] at h
    split_ifs at h with hg ht ht2
    · simp only [Prod.mk.injEq, Option.some.injEq] at h
      exact Or.inl h.1.symm
    · simp at h
    · simp only [Prod.mk.injEq, Option.some.injEq] at h
      exact Or.inr ⟨lms, rfl, by simpa using hg, h.1.symm⟩
    · simp at h

/- Throttle lemmas over frame streams. -/

lemma processFrames_chain (w : Bool) (s : ℤ) (b : Option Pose) :
    ∀ (frames : List (ℤ × Option Pose)) (last : ℤ),
      List.Chain (fun a c => a + 100 < c) last
        ((processFrames w s b frames last).map Prod.fst) := by
  intro frames
  induction frames with
  | nil => intro last; simp [processFrames]
  | cons tf rest ih =>
    intro last
    obtain ⟨t, f⟩ := tf
    rcases hstep : onResultsStep w s b last t f with ⟨pub, l'⟩
    cases pub with
    | none =>
      have hl : l' = last := onResultsStep_none_eq hstep
      subst hl
      simp only [processFrames, hstep]
      exact ih l'
    | some m =>
      obtain ⟨hl, hgt⟩ := onResultsStep_some_eq hstep
      subst hl
      simp only [processFrames, hstep, List.map_cons]
      exact List.Chain.cons (by omega) (ih l')

lemma processFrames_subset (w : Bool) (s : ℤ) (b : Option Pose) :
    ∀ (frames : List (ℤ × Option Pose)) (last : ℤ) (x : ℤ × PostureMetrics),
      x ∈ processFrames w s b frames last → x.1 ∈ frames.map Prod.fst := by
  intro frames
  induction frames with
  | nil => intro last x hx; simp [processFrames] at hx
  | cons tf rest ih =>
    intro last x hx
    obtain ⟨t, f⟩ := tf
    rcases hstep : onResultsStep w s b last t f with ⟨pub, l'⟩
    cases pub with
    | none =>
      simp only [processFrames, hstep] at hx
      have hx' := ih l' x hx
      simp only [List.map_cons, List.mem_cons]
      exact Or.inr hx'
    | some m =>
      simp only [processFrames, hstep] at hx
      rcases List.mem_cons.mp hx with rfl | hx'
      · simp
      · have hx'' := ih l' x hx'
        simp only [List.map_cons, List.mem_cons]
        exact Or.inr hx''

lemma processFrames_window (w : Bool) (s : ℤ) (b : Option Pose)
    (frames : List (ℤ × Option Pose)) (last T : ℤ)
    (hT : ∀ tf ∈ frames, T ≤ tf.1 ∧ tf.1 ≤ T + 50) :
    (processFrames w s b frames last).length ≤ 1 := by
  have hch := processFrames_chain w s b frames last
  have hsub := processFrames_subset w s b frames last
  rcases hls : processFrames w s b frames last with _ | ⟨x, tl⟩
  · simp
  rcases htl : tl with _ | ⟨y, rest⟩
  · simp
  exfalso
  rw [hls, htl, List.map_cons, List.map_cons, List.chain_cons, List.chain_cons] at hch
  obtain ⟨h1, h2, _⟩ := hch
  have hxmem : x.1 ∈ frames.map Prod.fst := by
    apply hsub
    rw [hls]
    exact List.mem_cons_self _ _
  have hymem : y.1 ∈ frames.map Prod.fst := by
    apply hsub
    rw [hls, htl]
    exact List.mem_cons_of_mem _ (List.mem_cons_self _ _)
  obtain ⟨tx, htx, hex⟩ := List.mem_map.mp hxmem
  obtain ⟨ty, hty, hey⟩ := List.mem_map.mp hymem
  obtain ⟨hx1, hx2⟩ := hT tx htx
  obtain ⟨hy1, hy2⟩ := hT ty hty
  omega

lemma processFrames_spaced (w : Bool) (s : ℤ) (b : Option Pose) :
    ∀ (n : ℕ) (t last : ℤ), last + 100 < t →
      (processFrames w s b (spacedFrames n t) last).length = n := by
  intro n
  induction n with
  | zero => intro t last h; simp [spacedFrames, processFrames]
  | succ k ih =>
    intro t last h
    have hstep : onResultsStep w s b last t none = (some neutralMetrics, t) := by
      simp [onResultsStep, show (100 : ℤ) < t - last by omega]
    simp only [spacedFrames, processFrames, hstep, List.length_cons]
    rw [ih (t + 150) t (by omega)]

/- Last small helpers for the claim theorems. -/

lemma visOk_iff (p : Landmark) :
    visOk p ↔ ∀ v, p.visibility = some v → 0.5 < v := by
  cases hv : p.visibility <;> simp [visOk, hv]

lemma pose0_notSideways : ¬ isSideways pose0 := by
  unfold isSideways
  rw [show (lm pose0 0).x - earMidX pose0 = (0.5 : ℝ) - (0.4 + 0.6) / 2 from rfl,
    show (0.5 : ℝ) - (0.4 + 0.6) / 2 = 0 by norm_num, abs_zero]
  norm_num

lemma slouchThreshold_notSideways (x : ℤ) (p : Pose) (hns : ¬ isSideways p) :
    slouchThreshold x p =
      if 6 ≤ x then
        (if x = 6 then 0.055 else if x = 7 then 0.042
          else 0.02 + (10 - (x : ℝ)) * 0.003)
      else 0.03 + 0.07 * toleranceFactor x := by
  unfold slouchThreshold
  by_cases h6 : 6 ≤ x
  · have hu : useStrictSlouch x p := Or.inl h6
    rw [if_pos h6, if_neg (not_not_intro hu)]
  · rw [if_neg h6, if_pos ?_]
    rintro (h | ⟨hsw, _⟩)
    · exact h6 h
    · exact hns hsw

/-- C7: a pose is judged visible by `isPersonReallyVisible` if and only if all
four rules hold: the landmark sequence has at least 13 entries; the nose and
both shoulder landmarks lie within −0.05 to 1.05 on each axis; each of nose,
left shoulder and right shoulder has visibility confidence absent or greater
than 0.5; and the Euclidean distance between the two shoulder landmarks is at
least 0.02.  Failure of any one rule yields not-visible. -/
theorem C7_visibility_gate (lms : Pose) :
    isPersonReallyVisible lms = true ↔
      (13 ≤ lms.length ∧
       (-0.05 ≤ (lm lms 0).x ∧ (lm lms 0).x ≤ 1.05 ∧
         -0.05 ≤ (lm lms 0).y ∧ (lm lms 0).y ≤ 1.05) ∧
       (-0.05 ≤ (lm lms 11).x ∧ (lm lms 11).x ≤ 1.05 ∧
         -0.05 ≤ (lm lms 11).y ∧ (lm lms 11).y ≤ 1.05) ∧
       (-0.05 ≤ (lm lms 12).x ∧ (lm lms 12).x ≤ 1.05 ∧
         -0.05 ≤ (lm lms 12).y ∧ (lm lms 12).y ≤ 1.05) ∧
       (∀ v, (lm lms 0).visibility = some v → 0.5 < v) ∧
       (∀ v, (lm lms 11).visibility = some v → 0.5 < v) ∧
       (∀ v, (lm lms 12).visibility = some v → 0.5 < v) ∧
       0.02 ≤ Real.sqrt (((lm lms 12).x - (lm lms 11).x) ^ 2 +
         ((lm lms 12).y - (lm lms 11).y) ^ 2)) := by
  constructor
  · intro h
    simp only [isPersonReallyVisible] at h
    split_ifs at h with h1 h2 h3 h4
    obtain ⟨hf0, hf11, hf12⟩ := h2
    obtain ⟨hv0, hv11, hv12⟩ := h3
    exact ⟨by omega, hf0, hf11, hf12, (visOk_iff _).mp hv0, (visOk_iff _).mp hv11,
      (visOk_iff _).mp hv12, le_of_not_lt h4⟩
  · rintro ⟨hlen, hf0, hf11, hf12, hv0, hv11, hv12, hd⟩
    simp only [isPersonReallyVisible]
    rw [if_neg (by omega : ¬ lms.length < 13),
      if_neg (not_not_intro
        (⟨hf0, hf11, hf12⟩ :
          inFrame (lm lms 0) ∧ inFrame (lm lms 11) ∧ inFrame (lm lms 12))),
      if_neg (not_not_intro
        (⟨(visOk_iff _).mpr hv0, (visOk_iff _).mpr hv11, (visOk_iff _).mpr hv12⟩ :
          visOk (lm lms 0) ∧ visOk (lm lms 11) ∧ visOk (lm lms 12))),
      if_neg (not_lt.mpr hd)]

/-- C1 counterexample: at the fixed geometry `basePose1`/`currPose1` (a visible
pose whose head lateral offset is 0.132), the warning flag is set at
sensitivity 4 but clear at the higher sensitivity 5, because the head-sideways
threshold does not tighten from sensitivity 4 (0.13) to 5 (0.135) — it
loosens.  This refutes both the subset property and the claim that the
head-sideways threshold strictly decreases over 1..10. -/
theorem C1_counterexample :
    isPersonReallyVisible currPose1 = true ∧
    (analyze false 4 (some basePose1) currPose1).isWarning = true ∧
    (analyze false 5 (some basePose1) currPose1).isWarning = false ∧
    headSideThreshold false 4 = 0.13 ∧ headSideThreshold false 5 = 0.135 ∧
    headSideThreshold false 4 < headSideThreshold false 5 := by
  refine ⟨currPose1_visible, ?_, ?_, headSideThreshold_4, headSideThreshold_5, ?_⟩
  · rw [analyze_isWarning]
    exact currPose1_warning_s4
  · rw [analyze_isWarning]
    exact currPose1_noWarning_s5
  · rw [headSideThreshold_4, headSideThreshold_5]
    norm_num

/-- C1 amended: sensitivity monotonicity holds per rule only in restricted
ranges.  The neck-angle threshold is strictly increasing over the whole range
1..10 (so neck-angle warnings are monotone in sensitivity); the head-sideways
threshold strictly tightens within 1..4 and within 5..10 (but not across the
4→5 boundary, as the counterexample shows); and the slouch threshold strictly
tightens over 1..10 whenever the head is not sideways. -/
theorem C1_amended :
    (∀ s t : ℤ, 1 ≤ s → s < t → t ≤ 10 →
      neckThreshold false s < neckThreshold false t) ∧
    (∀ s t : ℤ, 1 ≤ s → s < t → t ≤ 4 →
      headSideThreshold false t < headSideThreshold false s) ∧
    (∀ s t : ℤ, 5 ≤ s → s < t → t ≤ 10 →
      headSideThreshold false t < headSideThreshold false s) ∧
    (∀ s t : ℤ, 1 ≤ s → s < t → t ≤ 10 → ∀ p : Pose, ¬ isSideways p →
      slouchThreshold t p < slouchThreshold s p) := by
  refine ⟨?_, ?_, ?_, ?_⟩
  · intro s t hs hst ht
    have hs' : s ≤ 9 := by omega
    have ht' : 2 ≤ t := by omega
    interval_cases s <;> interval_cases t <;> norm_num [neckThreshold] at hst ⊢
  · intro s t hs hst ht
    have hs' : s ≤ 3 := by omega
    have ht' : 2 ≤ t := by omega
    interval_cases s <;> interval_cases t <;> norm_num [headSideThreshold] at hst ⊢
  · intro s t hs hst ht
    have hs' : s ≤ 9 := by omega
    have ht' : 6 ≤ t := by omega
    interval_cases s <;> interval_cases t <;> norm_num [headSideThreshold] at hst ⊢
  · intro s t hs hst ht p hns
    rw [slouchThreshold_notSideways s p hns, slouchThreshold_notSideways t p hns]
    have hs' : s ≤ 9 := by omega
    have ht' : 2 ≤ t := by omega
    interval_cases s <;> interval_cases t <;>
      norm_num [toleranceFactor] at hst ⊢

/-- C1 witness: concrete instances of every part of the amended monotonicity
statement, with each hypothesis discharged on explicit sensitivities and on
the non-sideways pose `pose0`. -/
theorem C1_witness :
    ((1 : ℤ) ≤ 3 ∧ (3 : ℤ) < 7 ∧ (7 : ℤ) ≤ 10 ∧
      neckThreshold false 3 < neckThreshold false 7) ∧
    ((1 : ℤ) ≤ 2 ∧ (2 : ℤ) < 4 ∧ (4 : ℤ) ≤ 4 ∧
      headSideThreshold false 4 < headSideThreshold false 2) ∧
    ((5 : ℤ) ≤ 5 ∧ (5 : ℤ) < 9 ∧ (9 : ℤ) ≤ 10 ∧
      headSideThreshold false 9 < headSideThreshold false 5) ∧
    (¬ isSideways pose0 ∧ slouchThreshold 10 pose0 < slouchThreshold 2 pose0) := by
  refine ⟨⟨by norm_num, by norm_num, by norm_num, ?_⟩,
    ⟨by norm_num, by norm_num, by norm_num, ?_⟩,
    ⟨by norm_num, by norm_num, by norm_num, ?_⟩, ⟨pose0_notSideways, ?_⟩⟩
  · exact C1_amended.1 3 7 (by norm_num) (by norm_num) (by norm_num)
  · exact C1_amended.2.1 2 4 (by norm_num) (by norm_num) (by norm_num)
  · exact C1_amended.2.2.1 5 9 (by norm_num) (by norm_num) (by norm_num)
  · exact C1_amended.2.2.2 2 10 (by norm_num) (by norm_num) (by norm_num) pose0
      pose0_notSideways

/-- C2 counterexample: the neutral record published when nobody is visible has
`isOptimal = true`, not `false` as the claim states for all boolean flags. -/
theorem C2_counterexample :
    onResultsStep false 5 none 0 200 none = (some neutralMetrics, 200) ∧
    neutralMetrics.personVisible = false ∧ neutralMetrics.isOptimal = true := by
  refine ⟨?_, rfl, rfl⟩
  norm_num [onResultsStep]

/-- C2 amended: in every published record with `personVisible = false`, the
numeric fields `neckAngle`, `screenDistance` and `slouchFactor` are zero and
`isWarning`, `isAlarm` and the neck sub-flag are false, while `isOptimal` is
true (the neutral value the source emits); no stale data is carried over. -/
theorem C2_amended : ∀ (w : Bool) (s : ℤ) (b : Option Pose) (last now : ℤ)
    (f : Option Pose) (m : PostureMetrics) (l' : ℤ),
    onResultsStep w s b last now f = (some m, l') → m.personVisible = false →
    m.neckAngle = 0 ∧ m.screenDistance = 0 ∧ m.slouchFactor = 0 ∧
      m.isWarning = false ∧ m.isAlarm = false ∧ m.isNeckWarning = false ∧
      m.isOptimal = true := by
  intro w s b last now f m l' h hpv
  rcases onResultsStep_some_metrics h with rfl | ⟨lms, _, _, rfl⟩
  · exact ⟨rfl, rfl, rfl, rfl, rfl, rfl, rfl⟩
  · rw [analyze_personVisible] at hpv
    cases hpv

/-- C2 witness: a concrete no-pose frame publishes the neutral record, whose
fields satisfy the amended statement. -/
theorem C2_witness :
    onResultsStep false 4 none 0 300 none = (some neutralMetrics, 300) ∧
    neutralMetrics.personVisible = false ∧
    (neutralMetrics.neckAngle = 0 ∧ neutralMetrics.screenDistance = 0 ∧
      neutralMetrics.slouchFactor = 0 ∧ neutralMetrics.isWarning = false ∧
      neutralMetrics.isAlarm = false ∧ neutralMetrics.isNeckWarning = false ∧
      neutralMetrics.isOptimal = true) := by
  have h : onResultsStep false 4 none 0 300 none = (some neutralMetrics, 300) := by
    norm_num [onResultsStep]
  exact ⟨h, rfl, C2_amended false 4 none 0 300 none neutralMetrics 300 h rfl⟩

/-- C3 counterexample: `currPose3` against `basePose3` satisfies the
slouch-warning condition and the moved-away condition (span 0.1 < 0.62 × 0.4),
yet the published record has `isWarning = true`, because the raised-shoulders
recheck runs after the moved-away override and re-sets the warning. -/
theorem C3_counterexample :
    isPersonReallyVisible currPose3 = true ∧
    shoulderHeight basePose3 + slouchThreshold 5 currPose3 <
      shoulderHeight currPose3 ∧
    shoulderDist currPose3 < shoulderDist basePose3 * 0.62 ∧
    onResultsStep false 5 (some basePose3) 0 200 (some currPose3) =
      (some (analyze false 5 (some basePose3) currPose3), 200) ∧
    (analyze false 5 (some basePose3) currPose3).isWarning = true := by
  refine ⟨currPose3_visible, currPose3_slouchCond, ?_, ?_, ?_⟩
  · rw [shoulderDist_currPose3, shoulderDist_basePose3]
    norm_num
  · norm_num [onResultsStep, currPose3_visible]
  · rw [analyze_isWarning]
    exact currPose3_warning

/-- C3 amended: if additionally no raised-shoulders condition holds, then for
every baseline and pose satisfying the slouch-warning condition and the
moved-away condition, the classifier output has `isWarning = false` and
`isAlarm = false`. -/
theorem C3_amended : ∀ (s : ℤ) (b p : Pose),
    shoulderHeight b + slouchThreshold s p < shoulderHeight p →
    movedAwayCond b p →
    ¬ raisedShouldersCond s b p →
    (analyze false s (some b) p).isWarning = false ∧
      (analyze false s (some b) p).isAlarm = false := by
  intro s b p _ hm hr
  constructor
  · rw [analyze_isWarning, ← Bool.not_eq_true, classifyFlags_isWarning]
    rintro (h | ⟨_, hmv, _⟩)
    · exact hr h
    · exact hmv hm
  · rw [analyze_isAlarm, ← Bool.not_eq_true, classifyFlags_isAlarm]
    rintro ⟨_, _, hmv⟩
    exact hmv hm

/-- C3 witness: `witnessPose3` satisfies the slouch and moved-away conditions
without any raised-shoulders condition, and both flags are published false. -/
theorem C3_witness :
    (shoulderHeight basePose3 + slouchThreshold 5 witnessPose3 <
      shoulderHeight witnessPose3) ∧
    movedAwayCond basePose3 witnessPose3 ∧
    ¬ raisedShouldersCond 5 basePose3 witnessPose3 ∧
    (analyze false 5 (some basePose3) witnessPose3).isWarning = false ∧
    (analyze false 5 (some basePose3) witnessPose3).isAlarm = false := by
  obtain ⟨h1, h2⟩ := C3_amended 5 basePose3 witnessPose3 witnessPose3_slouchCond
    witnessPose3_movedAway witnessPose3_notRaised
  exact ⟨witnessPose3_slouchCond, witnessPose3_movedAway, witnessPose3_notRaised,
    h1, h2⟩

/-- C4 counterexample: after `calibrate`, the capture listener stores the next
results that carry any landmark list, with no visibility-gate check — a
phantom pose (which the gate rejects) delivered before a genuinely visible
pose becomes the baseline, so the "next visible pose" is not stored. -/
theorem C4_counterexample :
    (calibrate ⟨none, false⟩).armed = true ∧
    isPersonReallyVisible phantomPose = false ∧
    isPersonReallyVisible pose0 = true ∧
    (deliverResults (deliverResults (calibrate ⟨none, false⟩) (some phantomPose))
      (some pose0)).baseline = some phantomPose ∧
    some phantomPose ≠ some pose0 := by
  refine ⟨rfl, phantomPose_invisible, pose0_visible, rfl, ?_⟩
  intro h
  have h2 : phantomPose = pose0 := Option.some.inj h
  have h3 := congrArg (fun l => (lm l 0).y) h2
  dsimp only at h3
  rw [show (lm phantomPose 0).y = (0.5 : ℝ) from rfl,
    show (lm pose0 0).y = (0.2 : ℝ) from rfl] at h3
  norm_num at h3

/-- C4 amended: `calibrate` arms the one-shot capture without touching the
stored baseline; while armed, the next delivered results carrying any landmark
list (visible per the gate or not) are stored as the baseline exactly once and
the state is disarmed; results without landmarks leave the armed state in
place indefinitely; and once disarmed, deliveries never change the state. -/
theorem C4_amended :
    (∀ s : CalibState, (calibrate s).armed = true ∧
      (calibrate s).baseline = s.baseline) ∧
    (∀ (s : CalibState) (lms : Pose), s.armed = true →
      deliverResults s (some lms) = ⟨some lms, false⟩) ∧
    (∀ s : CalibState, s.armed = true → deliverResults s none = s) ∧
    (∀ (s : CalibState) (f : Option Pose), s.armed = false →
      deliverResults s f = s) := by
  refine ⟨fun s => ⟨rfl, rfl⟩, ?_, ?_, ?_⟩
  · intro s lms h
    simp [deliverResults, h]
  · intro s h
    simp [deliverResults, h]
  · intro s f h
    simp [deliverResults, h]

/-- C4 witness: the amended calibration behaviour on concrete states — arming,
one-shot capture of a landmarked pose, persistence while no pose arrives, and
inertness when disarmed. -/
theorem C4_witness :
    (calibrate ⟨some pose0, false⟩).armed = true ∧
    deliverResults ⟨none, true⟩ (some pose0) = ⟨some pose0, false⟩ ∧
    deliverResults ⟨none, true⟩ none = ⟨none, true⟩ ∧
    deliverResults ⟨some pose0, false⟩ (some phantomPose) = ⟨some pose0, false⟩ := by
  exact ⟨(C4_amended.1 ⟨some pose0, false⟩).1,
    C4_amended.2.1 ⟨none, true⟩ pose0 rfl,
    C4_amended.2.2.1 ⟨none, true⟩ rfl,
    C4_amended.2.2.2 ⟨some pose0, false⟩ (some phantomPose) rfl⟩

/-- C5: whenever a frame is processed with no baseline stored, any published
record has `isWarning = false`, `isAlarm = false` and hence
`isOptimal = true`. -/
theorem C5_no_baseline : ∀ (w : Bool) (s : ℤ) (last now : ℤ) (lms : Pose)
    (m : PostureMetrics) (l' : ℤ),
    onResultsStep w s none last now (some lms) = (some m, l') →
    m.isWarning = false ∧ m.isAlarm = false ∧ m.isOptimal = true := by
  intro w s last now lms m l' h
  rcases onResultsStep_some_metrics h with rfl | ⟨lms', _, _, rfl⟩
  · exact ⟨rfl, rfl, rfl⟩
  · refine ⟨?_, ?_, ?_⟩
    · rw [analyze_isWarning, classifyFlags_none]
    · rw [analyze_isAlarm, classifyFlags_none]
    · rw [analyze_isOptimal, analyze_isWarning, analyze_isAlarm, classifyFlags_none]
      rfl

/-- C5 witness: a concrete visible pose processed without a baseline publishes
a record with both alert flags false and the optimal flag set. -/
theorem C5_witness :
    onResultsStep false 5 none 0 200 (some pose0) =
      (some (analyze false 5 none pose0), 200) ∧
    (analyze false 5 none pose0).isWarning = false ∧
    (analyze false 5 none pose0).isAlarm = false ∧
    (analyze false 5 none pose0).isOptimal = true := by
  have h : onResultsStep false 5 none 0 200 (some pose0) =
      (some (analyze false 5 none pose0), 200) := by
    norm_num [onResultsStep, pose0_visible]
  obtain ⟨h1, h2, h3⟩ := C5_no_baseline false 5 0 200 pose0 _ 200 h
  exact ⟨h, h1, h2, h3⟩

/-- C6: in every published record with `personVisible = true`, `isOptimal`
equals the negation of (`isWarning` or `isAlarm`). -/
theorem C6_optimal_flag : ∀ (w : Bool) (s : ℤ) (b : Option Pose) (last now : ℤ)
    (f : Option Pose) (m : PostureMetrics) (l' : ℤ),
    onResultsStep w s b last now f = (some m, l') → m.personVisible = true →
    m.isOptimal = (!m.isWarning && !m.isAlarm) := by
  intro w s b last now f m l' h hpv
  rcases onResultsStep_some_metrics h with rfl | ⟨lms, _, _, rfl⟩
  · cases hpv
  · exact analyze_isOptimal w s b lms

/-- C6 witness: the optimal-flag invariant on a concretely published visible
record. -/
theorem C6_witness :
    onResultsStep false 7 none 0 500 (some pose0) =
      (some (analyze false 7 none pose0), 500) ∧
    (analyze false 7 none pose0).personVisible = true ∧
    (analyze false 7 none pose0).isOptimal =
      (!(analyze false 7 none pose0).isWarning &&
        !(analyze false 7 none pose0).isAlarm) := by
  have h : onResultsStep false 7 none 0 500 (some pose0) =
      (some (analyze false 7 none pose0), 500) := by
    norm_num [onResultsStep, pose0_visible]
  exact ⟨h, rfl, C6_optimal_flag false 7 none 0 500 (some pose0) _ 500 h rfl⟩

/-- C8: the throttle publishes at most one record per 100 ms.  Successive
publication timestamps always exceed the previous one (initially the stored
`lastUpdate`) by more than 100; any frame burst confined to a 50 ms window
publishes at most one record; and frames spaced 150 ms apart each publish. -/
theorem C8_throttle :
    (∀ (w : Bool) (s : ℤ) (b : Option Pose) (frames : List (ℤ × Option Pose))
      (last : ℤ),
      List.Chain (fun a c => a + 100 < c) last
        ((processFrames w s b frames last).map Prod.fst)) ∧
    (∀ (w : Bool) (s : ℤ) (b : Option Pose) (frames : List (ℤ × Option Pose))
      (last T : ℤ), (∀ tf ∈ frames, T ≤ tf.1 ∧ tf.1 ≤ T + 50) →
      (processFrames w s b frames last).length ≤ 1) ∧
    (∀ (w : Bool) (s : ℤ) (b : Option Pose) (n : ℕ) (t last : ℤ),
      last + 100 < t →
      (processFrames w s b (spacedFrames n t) last).length = n) :=
  ⟨processFrames_chain, processFrames_window, processFrames_spaced⟩

/-- C8 witness: a three-frame burst inside a 50 ms window publishes at most
once, while three frames spaced 150 ms apart publish three times. -/
theorem C8_witness :
    (∀ tf ∈ [((200 : ℤ), (none : Option Pose)), (230, none), (250, none)],
      (200 : ℤ) ≤ tf.1 ∧ tf.1 ≤ 200 + 50) ∧
    (processFrames false 5 none
      [((200 : ℤ), (none : Option Pose)), (230, none), (250, none)] 0).length ≤ 1 ∧
    ((0 : ℤ) + 100 < 200) ∧
    (processFrames false 5 none (spacedFrames 3 200) 0).length = 3 := by
  have hT : ∀ tf ∈ [((200 : ℤ), (none : Option Pose)), (230, none), (250, none)],
      (200 : ℤ) ≤ tf.1 ∧ tf.1 ≤ 200 + 50 := by
    intro tf htf
    simp only [List.mem_cons, List.not_mem_nil, or_false] at htf
    rcases htf with rfl | rfl | rfl <;> norm_num
  exact ⟨hT, C8_throttle.2.1 false 5 none _ 0 200 hT, by norm_num,
    C8_throttle.2.2 false 5 none 3 200 0 (by norm_num)⟩

/-- C9: with no baseline the published screen distance is the constant 55; with
a baseline of positive shoulder span it is 55 times the ratio of baseline span
to current span. -/
theorem C9_screen_distance :
    (∀ (w : Bool) (s : ℤ) (p : Pose), (analyze w s none p).screenDistance = 55) ∧
    (∀ (w : Bool) (s : ℤ) (b p : Pose), 0 < shoulderDist b →
      (analyze w s (some b) p).screenDistance =
        55 * (shoulderDist b / shoulderDist p)) := by
  constructor
  · intro w s p
    rfl
  · intro w s b p hb
    rw [analyze_screenDistance]
    show (if 0 < shoulderDist b then
        Z_DISTANCE_DEFAULT * (shoulderDist b / shoulderDist p)
      else Z_DISTANCE_DEFAULT) = 55 * (shoulderDist b / shoulderDist p)
    rw [if_pos hb]
    rfl

/-- C9 witness: a baseline with span 0.4 and a current pose with span 0.1 give
the ratio formula, and without a baseline the constant 55 is published. -/
theorem C9_witness :
    0 < shoulderDist basePose1 ∧
    (analyze false 5 (some basePose1) currPose3).screenDistance =
      55 * (shoulderDist basePose1 / shoulderDist currPose3) ∧
    (analyze false 5 none pose0).screenDistance = 55 := by
  have hb : 0 < shoulderDist basePose1 := by
    rw [shoulderDist_basePose1]
    norm_num
  exact ⟨hb, C9_screen_distance.2 false 5 basePose1 currPose3 hb,
    C9_screen_distance.1 false 5 pose0⟩

/-- C10: the raw two-vector angle always lies in [0, 180]; the published neck
angle is that angle minus the chin-down and lateral-tilt penalties with no
clamping afterwards; and there is a visible pose (`negPose`) whose published
neck angle is strictly negative. -/
theorem C10_unclamped_neck_angle :
    (∀ p1 p2 p3 : Pt, 0 ≤ calculateAngle p1 p2 p3 ∧ calculateAngle p1 p2 p3 ≤ 180) ∧
    (∀ (w : Bool) (p : Pose),
      neckAngle w p = forwardNeckAngle p - chinDownPenalty w p -
        lateralTiltDeg p * 0.6) ∧
    isPersonReallyVisible negPose = true ∧
    onResultsStep false 5 none 0 200 (some negPose) =
      (some (analyze false 5 none negPose), 200) ∧
    (analyze false 5 none negPose).neckAngle < 0 := by
  refine ⟨calculateAngle_range, fun w p => rfl, negPose_visible, ?_, ?_⟩
  · norm_num [onResultsStep, negPose_visible]
  · rw [analyze_neckAngle, neckAngle_negPose]
    norm_num

end BackWatch

end
